import Mathlib

/-!
Shallow embedding of `rustls-libssl/src/error.rs`: the error-reporting
bridge between internal failures and the OpenSSL-compatible C ABI.

Machine integers: every numeric code in the source is a nonnegative
`i32` value far below `2^31`, so they are embedded as `Nat`; no
arithmetic in the source can overflow or go negative.

The OpenSSL error queue (`ERR_new` / `ERR_set_error`) is external to
the crate; it is embedded as an explicit list of records, with
`ERR_new` allocating a slot and `ERR_set_error` filling it, which
together amount to appending one record.
-/

/-- Bit offset of the reason flags, `ERR_RFLAGS_OFFSET` from
`openssl/err.h` (re-exported by `openssl_sys`); the source comments
point at `openssl/err.h` for these magic numbers. -/
def ERR_RFLAGS_OFFSET : Nat := 18

/-- Flag `ERR_RFLAG_FATAL = 0x1 << ERR_RFLAGS_OFFSET` from
`openssl/err.h` (re-exported by `openssl_sys`). -/
def ERR_RFLAG_FATAL : Nat := 1 <<< ERR_RFLAGS_OFFSET

/-- Constant `ERR_RFLAG_COMMON: i32 = 0x2 << ERR_RFLAGS_OFFSET` defined
in `error.rs`. -/
def ERR_RFLAG_COMMON : Nat := 2 <<< ERR_RFLAGS_OFFSET

/-- The `Lib` enum of `error.rs`: which subsystem raised the error. -/
inductive Lib where
  | Ssl
  | User
  deriving DecidableEq, Repr

/-- Discriminant values of `Lib` (`#[repr(i32)]` in the source):
`Ssl = 20` (`ERR_LIB_SSL`), `User = 128` (`ERR_LIB_USER`). -/
def Lib.code : Lib → Nat
  | .Ssl => 20
  | .User => 128

/-- The `Reason` enum of `error.rs`. -/
inductive Reason where
  | PassedNullParameter
  | InternalError
  | UnableToGetWriteLock
  | OperationFailed
  | Unsupported
  deriving DecidableEq, Repr

/-- Discriminant values of `Reason`, exactly as written in the source
(`#[repr(i32)]` with explicit discriminant expressions). -/
def Reason.code : Reason → Nat
  | .PassedNullParameter => ERR_RFLAG_FATAL ||| ERR_RFLAG_COMMON ||| 258
  | .InternalError => ERR_RFLAG_FATAL ||| ERR_RFLAG_COMMON ||| 259
  | .UnableToGetWriteLock => ERR_RFLAG_FATAL ||| ERR_RFLAG_COMMON ||| 272
  | .OperationFailed => ERR_RFLAG_FATAL ||| ERR_RFLAG_COMMON ||| 263
  | .Unsupported => ERR_RFLAG_COMMON ||| 268

/-- The string produced by the derived `Debug` impl for `Reason`
(`format!("{:?}", reason)` prints the bare variant name). -/
def Reason.debugName : Reason → String
  | .PassedNullParameter => "PassedNullParameter"
  | .InternalError => "InternalError"
  | .UnableToGetWriteLock => "UnableToGetWriteLock"
  | .OperationFailed => "OperationFailed"
  | .Unsupported => "Unsupported"

/-- The `Error` struct of `error.rs`: lib, reason and optional hint. -/
structure Error where
  lib : Lib
  reason : Reason
  string : Option String
  deriving DecidableEq, Repr

/-- Constructor `Error::unexpected_panic`. -/
def Error.unexpected_panic : Error :=
  ⟨Lib.Ssl, Reason.InternalError, none⟩

/-- Constructor `Error::null_pointer`. -/
def Error.null_pointer : Error :=
  ⟨Lib.Ssl, Reason.PassedNullParameter, none⟩

/-- Constructor `Error::cannot_lock`. -/
def Error.cannot_lock : Error :=
  ⟨Lib.Ssl, Reason.UnableToGetWriteLock, none⟩

/-- Constructor `Error::not_supported(hint)`. -/
def Error.not_supported (hint : String) : Error :=
  ⟨Lib.Ssl, Reason.Unsupported, some hint⟩

/-- Constructor `Error::bad_data(hint)`. -/
def Error.bad_data (hint : String) : Error :=
  ⟨Lib.Ssl, Reason.OperationFailed, some hint⟩

/-- Constructor `Error::from_rustls(err)`. The `rustls::Error` argument
is external to this crate and is only ever used through its rendered
`Display` text (`err.to_string()`), so it is embedded as that text. -/
def Error.from_rustls (renderedText : String) : Error :=
  ⟨Lib.User, Reason.OperationFailed, some renderedText⟩

/-- Constructor `Error::from_io(err)`. The `std::io::Error` argument is
external and only used through `err.to_string()`, so it is embedded as
its rendered text. -/
def Error.from_io (renderedText : String) : Error :=
  ⟨Lib.User, Reason.OperationFailed, some renderedText⟩

/-- One record of the process-wide OpenSSL error queue, as filled in by
`ERR_new` followed by `ERR_set_error(lib, reason, fmt, args)`. -/
structure ErrRecord where
  lib : Nat
  reason : Nat
  message : String
  deriving DecidableEq, Repr

/-- The display message computed in `Error::raise`:
`self.string.clone().unwrap_or_else(|| format!("{:?}", self.reason))`. -/
def Error.displayMessage (e : Error) : String :=
  match e.string with
  | some s => s
  | none => e.reason.debugName

/-- Semantics of `CString::new`: fails (returns `None`, so the `.unwrap()`
in `raise` panics) exactly when the string contains a NUL byte. -/
def cStringNew (s : String) : Option String :=
  if s.data.contains (Char.ofNat 0) then none else some s

/-- C `printf`-style formatting over a template, as performed by
`ERR_set_error`: scans the template for directives; `%s` consumes one
string argument and splices its characters in as data (the argument is
never re-scanned for directives); `%%` emits a literal percent. -/
def cFormat : List Char → List String → List Char
  | [], _ => []
  | c :: rest, args =>
    if c = Char.ofNat 37 then
      match rest with
      | [] => [c]
      | s :: rest2 =>
        if s = Char.ofNat 115 then
          match args with
          | a :: args2 => a.data ++ cFormat rest2 args2
          | [] => cFormat rest2 []
        else if s = Char.ofNat 37 then Char.ofNat 37 :: cFormat rest2 args
        else c :: s :: cFormat rest2 args
    else c :: cFormat rest args

/-- The fixed format template passed to `ERR_set_error` in
`Error::raise`: the two-character C string `"%s"`. -/
def fmtTemplate : String := "%s"

/-- Semantics of `Error::raise(self)`: builds a C string from the display
message (`CString::new(...).unwrap()` — `none` here models the panic on
an interior NUL byte), then appends one record to the error queue via
`ERR_new` and `ERR_set_error(lib, reason, "%s", message)`, and returns
`self` unchanged. The internal `log::error!` call has no effect visible
at this interface. -/
def Error.raise (e : Error) (q : List ErrRecord) :
    Option (Error × List ErrRecord) :=
  match cStringNew e.displayMessage with
  | none => none
  | some m =>
    some (e, q ++ [⟨e.lib.code, e.reason.code,
      String.mk (cFormat fmtTemplate.data [m])⟩])

/-- Abstract C pointer value: null or some valid address. -/
inductive CPtr where
  | null
  | addr (n : Nat)
  deriving DecidableEq, Repr

/-- Conversion `impl<T> From<Error> for *const T`: always `ptr::null()`. -/
def fromErrorConstPtr (_ : Error) : CPtr := CPtr.null

/-- Conversion `impl<T> From<Error> for *mut T`: always `ptr::null_mut()`. -/
def fromErrorMutPtr (_ : Error) : CPtr := CPtr.null

/-- Conversion `impl From<Error> for c_int`: always `0`. -/
def fromErrorCInt (_ : Error) : Int := 0

/-- Conversion `impl From<Error> for c_long`: always `0`. -/
def fromErrorCLong (_ : Error) : Int := 0

/-- Conversion `impl From<Error> for u64`: always `0`. -/
def fromErrorU64 (_ : Error) : Nat := 0

/-- Conversion `impl From<Error> for u32`: always `0`. -/
def fromErrorU32 (_ : Error) : Nat := 0

/-- Conversion `impl From<Error> for u16`: always `0`. -/
def fromErrorU16 (_ : Error) : Nat := 0

/-- Conversion `impl From<Error> for ()`: no observable output. -/
def fromErrorUnit (_ : Error) : Unit := ()

/-- The seven return conventions for which `From<Error>` is implemented
in `error.rs` (the two pointer impls counted separately). -/
inductive RetTy where
  | constPtr
  | mutPtr
  | cIntTy
  | cLongTy
  | u64Ty
  | u32Ty
  | u16Ty
  | unitTy
  deriving DecidableEq, Repr

/-- Carrier type of each return convention. -/
def RetTy.carrier : RetTy → Type
  | .constPtr => CPtr
  | .mutPtr => CPtr
  | .cIntTy => Int
  | .cLongTy => Int
  | .u64Ty => Nat
  | .u32Ty => Nat
  | .u16Ty => Nat
  | .unitTy => Unit

/-- The `From<Error>` conversion for each return convention: the
resolution of `.into()` at an entry point with that return type. -/
def RetTy.fromError : (t : RetTy) → Error → t.carrier
  | .constPtr => fromErrorConstPtr
  | .mutPtr => fromErrorMutPtr
  | .cIntTy => fromErrorCInt
  | .cLongTy => fromErrorCLong
  | .u64Ty => fromErrorU64
  | .u32Ty => fromErrorU32
  | .u16Ty => fromErrorU16
  | .unitTy => fromErrorUnit

/-- The sentinel value of each return convention: null, null, 0, 0, 0,
0, 0, and no output. -/
def RetTy.sentinel : (t : RetTy) → t.carrier
  | .constPtr => CPtr.null
  | .mutPtr => CPtr.null
  | .cIntTy => (0 : Int)
  | .cLongTy => (0 : Int)
  | .u64Ty => (0 : Nat)
  | .u32Ty => (0 : Nat)
  | .u16Ty => (0 : Nat)
  | .unitTy => ()

/-- Outcome of the unit of work wrapped by `ffi_panic_boundary`: either
it completes normally with a value, or it unwinds (panics). -/
inductive Work (A : Type) where
  | ok (v : A)
  | panics

/-- Semantics of the `ffi_panic_boundary!` macro for an entry point with
return convention `t`: `catch_unwind` around the work; on `Ok(ret)` the
result is returned as is; on `Err(_)` it returns
`Error::unexpected_panic().raise().into()`. The outer `Option` is `none`
only if `raise` itself panics (it cannot here, proved below); `some`
means no unwind escapes the boundary frame. -/
def ffiPanicBoundary (t : RetTy) (w : Work t.carrier)
    (q : List ErrRecord) : Option (t.carrier × List ErrRecord) :=
  match w with
  | .ok v => some (v, q)
  | .panics =>
    (Error.unexpected_panic.raise q).map fun p => (t.fromError p.1, p.2)

/-- One of the six/seven `Error` constructor call shapes, with the data
each takes from its caller. -/
inductive CtorCall where
  | unexpectedPanic
  | nullPointer
  | cannotLock
  | notSupported (hint : String)
  | badData (hint : String)
  | fromRustls (renderedText : String)
  | fromIo (renderedText : String)
  deriving DecidableEq, Repr

/-- The `Error` built by each constructor call. -/
def CtorCall.build : CtorCall → Error
  | .unexpectedPanic => Error.unexpected_panic
  | .nullPointer => Error.null_pointer
  | .cannotLock => Error.cannot_lock
  | .notSupported hint => Error.not_supported hint
  | .badData hint => Error.bad_data hint
  | .fromRustls s => Error.from_rustls s
  | .fromIo s => Error.from_io s

/-- State of one call scope: the `Error` value currently alive in the
scope (if any) and the shared process-wide error queue. -/
structure CallState where
  slot : Option Error
  queue : List ErrRecord
  deriving DecidableEq, Repr

/-- The operations a call scope can perform on an `Error`. `Error` has
no `Drop` impl (it only derives `Debug`), so dropping it runs no user
code; `dropErr` therefore only releases the value. -/
inductive Cmd where
  | construct (c : CtorCall)
  | dropErr
  | raiseErr
  deriving DecidableEq, Repr

/-- Small-step semantics of one command: constructing stores the new
`Error` in the scope and leaves the queue alone; dropping releases the
value and leaves the queue alone (no `Drop` impl); raising appends via
`Error::raise` (`none` models a panic inside `raise`). -/
def stepCmd : Cmd → CallState → Option CallState
  | .construct c, s => some ⟨some c.build, s.queue⟩
  | .dropErr, s => some ⟨none, s.queue⟩
  | .raiseErr, s =>
    match s.slot with
    | none => some s
    | some e => (e.raise s.queue).map fun p => ⟨some p.1, p.2⟩

/-- Structure eta for strings: rebuilding a string from its character
list gives the same string. -/
theorem string_mk_data (s : String) : String.mk s.data = s := rfl

/-- Formatting the fixed template `"%s"` with a single string argument
yields exactly that argument's characters. -/
theorem cFormat_fmt (m : String) : cFormat fmtTemplate.data [m] = m.data := by
  show m.data ++ [] = m.data
  simp

/-- Explicit form of `Error.raise` when the display message has no NUL
byte: it succeeds, returns the error unchanged, and appends exactly one
record carrying the lib code, reason code and display message. -/
theorem Error.raise_eq (e : Error) (q : List ErrRecord)
    (h : e.displayMessage.data.contains (Char.ofNat 0) = false) :
    e.raise q = some (e, q ++ [⟨e.lib.code, e.reason.code, e.displayMessage⟩]) := by
  have hn : cStringNew e.displayMessage = some e.displayMessage := by
    unfold cStringNew
    rw [h]
    rfl
  unfold Error.raise
  rw [hn]
  show some (e, q ++ [⟨e.lib.code, e.reason.code,
    String.mk (cFormat fmtTemplate.data [e.displayMessage])⟩]) =
    some (e, q ++ [⟨e.lib.code, e.reason.code, e.displayMessage⟩])
  rw [cFormat_fmt]

/-- Each return convention's `From<Error>` conversion yields that
convention's sentinel, whatever the error. -/
theorem fromError_eq_sentinel (t : RetTy) (e : Error) :
    t.fromError e = t.sentinel := by
  cases t <;> rfl

/-- Inversion for a successful `raise`: the output is the input error
unchanged together with the queue extended by exactly one record
carrying the lib code, reason code and display message. -/
theorem Error.raise_some_inv (e : Error) (q : List ErrRecord)
    (out : Error × List ErrRecord) (h : e.raise q = some out) :
    out = (e, q ++ [⟨e.lib.code, e.reason.code, e.displayMessage⟩]) := by
  unfold Error.raise at h
  split at h
  · exact Option.noConfusion h
  · rename_i m hm
    have hm2 : m = e.displayMessage := by
      unfold cStringNew at hm
      split at hm
      · exact Option.noConfusion hm
      · exact (Option.some.inj hm).symm
    cases h
    rw [hm2, cFormat_fmt, string_mk_data]

/-- C1: the `Lib` and `Reason` discriminants equal the exact ABI
constants: `Ssl = 20`, `User = 128`; each `Reason` value is
`base_code | common_flag | fatal_flag?` exactly as documented, with
`Unsupported` carrying no fatal flag; the resulting concrete values are
also pinned. -/
theorem lib_and_reason_codes_match_abi :
    Lib.Ssl.code = 20 ∧ Lib.User.code = 128 ∧
    Reason.PassedNullParameter.code =
      (ERR_RFLAG_FATAL ||| ERR_RFLAG_COMMON ||| 258) ∧
    Reason.InternalError.code =
      (ERR_RFLAG_FATAL ||| ERR_RFLAG_COMMON ||| 259) ∧
    Reason.UnableToGetWriteLock.code =
      (ERR_RFLAG_FATAL ||| ERR_RFLAG_COMMON ||| 272) ∧
    Reason.OperationFailed.code =
      (ERR_RFLAG_FATAL ||| ERR_RFLAG_COMMON ||| 263) ∧
    Reason.Unsupported.code = (ERR_RFLAG_COMMON ||| 268) ∧
    Reason.Unsupported.code &&& ERR_RFLAG_FATAL = 0 ∧
    Reason.PassedNullParameter.code = 786690 ∧
    Reason.InternalError.code = 786691 ∧
    Reason.UnableToGetWriteLock.code = 786704 ∧
    Reason.OperationFailed.code = 786695 ∧
    Reason.Unsupported.code = 524556 := by
  decide

/-- C2: every `From<Error>` conversion yields the fixed sentinel for its
return convention (null, null, 0, 0, 0, 0, 0, unit), and each
conversion is field-blind: it gives the same result on any two
errors. -/
theorem sentinel_conversion_fixed_and_field_blind :
    (∀ e : Error, fromErrorConstPtr e = CPtr.null) ∧
    (∀ e : Error, fromErrorMutPtr e = CPtr.null) ∧
    (∀ e : Error, fromErrorCInt e = 0) ∧
    (∀ e : Error, fromErrorCLong e = 0) ∧
    (∀ e : Error, fromErrorU64 e = 0) ∧
    (∀ e : Error, fromErrorU32 e = 0) ∧
    (∀ e : Error, fromErrorU16 e = 0) ∧
    (∀ e : Error, fromErrorUnit e = ()) ∧
    (∀ (t : RetTy) (e1 e2 : Error), t.fromError e1 = t.fromError e2) := by
  refine ⟨fun _ => rfl, fun _ => rfl, fun _ => rfl, fun _ => rfl,
    fun _ => rfl, fun _ => rfl, fun _ => rfl, fun _ => rfl,
    fun t e1 e2 => ?_⟩
  cases t <;> rfl

/-- C3 counterexample: an `Error` whose hint contains an interior NUL
byte makes `raise` fail (the `CString::new(...).unwrap()` in the source
panics there), refuting the claim that `raise` never fails for message
strings with arbitrary bytes. -/
theorem raise_fails_on_interior_nul_hint :
    (Error.not_supported
      (String.mk [Char.ofNat 97, Char.ofNat 0, Char.ofNat 98])).raise [] =
      none := by
  decide

/-- C3 (amended): for every `Error` whose display message (the hint if
present, else the `Reason` debug name) contains no NUL byte, `raise`
completes without failing or panicking. -/
theorem raise_total_on_nul_free_messages (e : Error) (q : List ErrRecord)
    (h : e.displayMessage.data.contains (Char.ofNat 0) = false) :
    (e.raise q).isSome = true := by
  rw [Error.raise_eq e q h]
  rfl

/-- Witness for the amended C3 theorem at `Error::null_pointer` and the
empty queue. -/
theorem raise_total_on_nul_free_messages_witness :
    Error.null_pointer.displayMessage.data.contains (Char.ofNat 0) = false ∧
    (Error.null_pointer.raise []).isSome = true :=
  ⟨by decide, raise_total_on_nul_free_messages Error.null_pointer [] (by decide)⟩

/-- C4: whenever `raise` returns, it returns the same `Error` it was
given, with `lib`, `reason` and `string` fields unchanged. -/
theorem raise_returns_error_unchanged (e : Error) (q : List ErrRecord)
    (out : Error × List ErrRecord) (h : e.raise q = some out) :
    out.1 = e ∧ out.1.lib = e.lib ∧ out.1.reason = e.reason ∧
      out.1.string = e.string := by
  rw [Error.raise_some_inv e q out h]
  exact ⟨rfl, rfl, rfl, rfl⟩

/-- Witness for C4 at `Error::null_pointer` and the empty queue. -/
theorem raise_returns_error_unchanged_witness :
    Error.null_pointer.raise [] = some (Error.null_pointer,
      [⟨20, Reason.PassedNullParameter.code, "PassedNullParameter"⟩]) ∧
    (Error.null_pointer,
      [(⟨20, Reason.PassedNullParameter.code, "PassedNullParameter"⟩ :
        ErrRecord)]).1 = Error.null_pointer :=
  ⟨by decide,
    (raise_returns_error_unchanged Error.null_pointer []
      (Error.null_pointer,
        [⟨20, Reason.PassedNullParameter.code, "PassedNullParameter"⟩])
      (by decide)).1⟩

/-- C5: every record pushed by `raise` carries the hint as its message
when a hint is present, else the `Reason` debug name; in particular
`null_pointer()` pushes "PassedNullParameter" and
`not_supported("renegotiation")` pushes "renegotiation". -/
theorem raise_message_is_hint_or_reason_name :
    (∀ (e : Error) (q : List ErrRecord) (out : Error × List ErrRecord),
      e.raise q = some out →
      out.2 = q ++ [⟨e.lib.code, e.reason.code,
        match e.string with
        | some hint => hint
        | none => e.reason.debugName⟩]) ∧
    Error.null_pointer.raise [] = some (Error.null_pointer,
      [⟨20, Reason.PassedNullParameter.code, "PassedNullParameter"⟩]) ∧
    (Error.not_supported "renegotiation").raise [] =
      some (Error.not_supported "renegotiation",
        [⟨20, Reason.Unsupported.code, "renegotiation"⟩]) := by
  refine ⟨fun e q out h => ?_, by decide, by decide⟩
  rw [Error.raise_some_inv e q out h]
  rfl

/-- Witness for C5 at `Error::not_supported("renegotiation")` and the
empty queue. -/
theorem raise_message_is_hint_or_reason_name_witness :
    (Error.not_supported "renegotiation").raise [] =
      some (Error.not_supported "renegotiation",
        [⟨20, Reason.Unsupported.code, "renegotiation"⟩]) ∧
    (Error.not_supported "renegotiation",
      [(⟨20, Reason.Unsupported.code, "renegotiation"⟩ : ErrRecord)]).2 =
      [] ++ [⟨(Error.not_supported "renegotiation").lib.code,
        (Error.not_supported "renegotiation").reason.code, "renegotiation"⟩] :=
  ⟨by decide,
    raise_message_is_hint_or_reason_name.1
      (Error.not_supported "renegotiation") []
      (Error.not_supported "renegotiation",
        [⟨20, Reason.Unsupported.code, "renegotiation"⟩])
      (by decide)⟩

/-- C6: for every return convention and queue, the panic boundary passes
a normal completion through unchanged and adds no queue record; on an
unwind it intercepts (result is `some`, never an escaping unwind),
returns the declared convention's sentinel, and the queue gains exactly
one record, whose reason is `InternalError`. -/
theorem panic_boundary_normal_and_panic_behaviour :
    ∀ (t : RetTy) (q : List ErrRecord),
      (∀ v : t.carrier, ffiPanicBoundary t (Work.ok v) q = some (v, q)) ∧
      ffiPanicBoundary t Work.panics q =
        some (t.sentinel, q ++ [⟨Lib.Ssl.code, Reason.InternalError.code,
          "InternalError"⟩]) := by
  intro t q
  refine ⟨fun v => rfl, ?_⟩
  unfold ffiPanicBoundary
  rw [Error.raise_eq Error.unexpected_panic q (by decide)]
  show some (t.fromError Error.unexpected_panic, _) = _
  rw [fromError_eq_sentinel]
  rfl

/-- C7: the queue message is always the display message passed as the
single argument of the fixed template `"%s"`; formatting that template
with any argument yields the argument verbatim (so a hint containing
the two literal characters of a `%s` directive is never interpreted,
shown concretely on `bad_data("100%s off")`), while `cFormat` genuinely
interprets directives occurring in a template position. -/
theorem format_template_fixed_percent_s :
    (∀ m : String, cFormat fmtTemplate.data [m] = m.data) ∧
    (∀ (e : Error) (q : List ErrRecord) (out : Error × List ErrRecord),
      e.raise q = some out →
      out.2 = q ++ [⟨e.lib.code, e.reason.code,
        String.mk (cFormat fmtTemplate.data [e.displayMessage])⟩]) ∧
    cFormat ("ab%scd").data ["X"] = ("abXcd").data ∧
    (Error.bad_data "100%s off").raise [] =
      some (Error.bad_data "100%s off",
        [⟨20, Reason.OperationFailed.code, "100%s off"⟩]) := by
  refine ⟨cFormat_fmt, fun e q out h => ?_, by decide, by decide⟩
  rw [Error.raise_some_inv e q out h, cFormat_fmt, string_mk_data]

/-- Witness for C7 at `Error::bad_data("100%s off")` and the empty
queue: the hint containing a literal `%s` lands verbatim. -/
theorem format_template_fixed_percent_s_witness :
    (Error.bad_data "100%s off").raise [] =
      some (Error.bad_data "100%s off",
        [⟨20, Reason.OperationFailed.code, "100%s off"⟩]) ∧
    (Error.bad_data "100%s off",
      [(⟨20, Reason.OperationFailed.code, "100%s off"⟩ : ErrRecord)]).2 =
      [] ++ [⟨(Error.bad_data "100%s off").lib.code,
        (Error.bad_data "100%s off").reason.code,
        String.mk (cFormat fmtTemplate.data
          [(Error.bad_data "100%s off").displayMessage])⟩] :=
  ⟨by decide,
    format_template_fixed_percent_s.2.1 (Error.bad_data "100%s off") []
      (Error.bad_data "100%s off",
        [⟨20, Reason.OperationFailed.code, "100%s off"⟩])
      (by decide)⟩

/-- C8: each constructor is a total function and tags its output
exactly as documented; the wrapped-external-error constructors carry
`lib = User`, `reason = OperationFailed` and the source error's
rendered text as hint; hint-taking constructors store the hint
verbatim. -/
theorem constructors_total_and_fields :
    Error.unexpected_panic.lib = Lib.Ssl ∧
    Error.unexpected_panic.reason = Reason.InternalError ∧
    Error.unexpected_panic.string = none ∧
    Error.null_pointer.lib = Lib.Ssl ∧
    Error.null_pointer.reason = Reason.PassedNullParameter ∧
    Error.null_pointer.string = none ∧
    Error.cannot_lock.lib = Lib.Ssl ∧
    Error.cannot_lock.reason = Reason.UnableToGetWriteLock ∧
    Error.cannot_lock.string = none ∧
    (∀ hint : String, (Error.not_supported hint).lib = Lib.Ssl ∧
      (Error.not_supported hint).reason = Reason.Unsupported ∧
      (Error.not_supported hint).string = some hint) ∧
    (∀ hint : String, (Error.bad_data hint).lib = Lib.Ssl ∧
      (Error.bad_data hint).reason = Reason.OperationFailed ∧
      (Error.bad_data hint).string = some hint) ∧
    (∀ renderedText : String,
      (Error.from_rustls renderedText).lib = Lib.User ∧
      (Error.from_rustls renderedText).reason = Reason.OperationFailed ∧
      (Error.from_rustls renderedText).string = some renderedText) ∧
    (∀ renderedText : String,
      (Error.from_io renderedText).lib = Lib.User ∧
      (Error.from_io renderedText).reason = Reason.OperationFailed ∧
      (Error.from_io renderedText).string = some renderedText) :=
  ⟨rfl, rfl, rfl, rfl, rfl, rfl, rfl, rfl, rfl,
    fun _ => ⟨rfl, rfl, rfl⟩, fun _ => ⟨rfl, rfl, rfl⟩,
    fun _ => ⟨rfl, rfl, rfl⟩, fun _ => ⟨rfl, rfl, rfl⟩⟩

/-- C9: constructing an `Error` and dropping it without raising leaves
the shared queue exactly as it was, and every command other than a
raise leaves the queue unchanged: only `raise` has queue effects. -/
theorem only_raise_touches_queue :
    (∀ (c : CtorCall) (s : CallState),
      (stepCmd (Cmd.construct c) s).bind (stepCmd Cmd.dropErr) =
        some ⟨none, s.queue⟩) ∧
    (∀ (cmd : Cmd) (s s2 : CallState), cmd ≠ Cmd.raiseErr →
      stepCmd cmd s = some s2 → s2.queue = s.queue) := by
  refine ⟨fun c s => rfl, fun cmd s s2 hne h => ?_⟩
  cases cmd with
  | construct c =>
    have h2 : (⟨some c.build, s.queue⟩ : CallState) = s2 := Option.some.inj h
    rw [← h2]
  | dropErr =>
    have h2 : (⟨none, s.queue⟩ : CallState) = s2 := Option.some.inj h
    rw [← h2]
  | raiseErr => exact absurd rfl hne

/-- Witness for C9: dropping without raising, from an empty scope and
empty queue, leaves the queue unchanged. -/
theorem only_raise_touches_queue_witness :
    (Cmd.dropErr ≠ Cmd.raiseErr ∧
      stepCmd Cmd.dropErr ⟨none, []⟩ = some ⟨none, []⟩) ∧
    (⟨none, []⟩ : CallState).queue = (⟨none, []⟩ : CallState).queue :=
  ⟨⟨by decide, by decide⟩,
    only_raise_touches_queue.2 Cmd.dropErr ⟨none, []⟩ ⟨none, []⟩
      (by decide) (by decide)⟩

/-- C10: the five `Reason` encoded values are pairwise distinct and the
two `Lib` ids are distinct, so a queue record's `(lib id, reason code)`
pair uniquely identifies the failure kind and originating subsystem. -/
theorem codes_pairwise_distinct :
    Reason.PassedNullParameter.code ≠ Reason.InternalError.code ∧
    Reason.PassedNullParameter.code ≠ Reason.UnableToGetWriteLock.code ∧
    Reason.PassedNullParameter.code ≠ Reason.OperationFailed.code ∧
    Reason.PassedNullParameter.code ≠ Reason.Unsupported.code ∧
    Reason.InternalError.code ≠ Reason.UnableToGetWriteLock.code ∧
    Reason.InternalError.code ≠ Reason.OperationFailed.code ∧
    Reason.InternalError.code ≠ Reason.Unsupported.code ∧
    Reason.UnableToGetWriteLock.code ≠ Reason.OperationFailed.code ∧
    Reason.UnableToGetWriteLock.code ≠ Reason.Unsupported.code ∧
    Reason.OperationFailed.code ≠ Reason.Unsupported.code ∧
    Lib.Ssl.code ≠ Lib.User.code := by
  decide
